import Mathlib

/-!
Verification of the ZMODEM file-transfer engine of this repository.

The development shallowly embeds, in Lean, the Go frame codec
(frame.go, frame_builder.go), the Go per-session protocol engine
(zmodem.go) and the TypeScript handshake sniffer
(detectZMODEMSequence in SSHManager), working over bytes modelled as
natural numbers below 256 and byte buffers modelled as lists.
Go slices indexed by position become lists with positional reads;
the unbounded parse loops, which the source bounds by explicit
guards or by buffer consumption, become fuel-indexed recursions with
fuel derived from the same bounds.
-/

set_option maxRecDepth 100000

namespace Zm

/-! ## Protocol constants (frame.go) -/

def ZPAD : Nat := 0x2A
def ZDLE : Nat := 0x18
def ZDLEE : Nat := 0x5E
def ZDLE_ESC : Nat := 0x40
def ZHEX : Nat := 0x30
def ZBIN : Nat := 0x31
def ZBIN32 : Nat := 0x32
def ZCRCE : Nat := 0x68
def ZCRCG : Nat := 0x69
def ZCRCQ : Nat := 0x6A
def ZCRCW : Nat := 0x6B

def FrameZRINIT : Nat := 0
def FrameZRQINIT : Nat := 1
def FrameZSINIT : Nat := 2
def FrameZACK : Nat := 3
def FrameZFILE : Nat := 4
def FrameZSKIP : Nat := 5
def FrameZNAK : Nat := 6
def FrameZABORT : Nat := 7
def FrameZFIN : Nat := 8
def FrameZRPOS : Nat := 9
def FrameZDATA : Nat := 10
def FrameZEOF : Nat := 11

/-! ## Byte-order helpers (encoding/binary, big endian) -/

def putU16 (n : Nat) : List Nat := [n / 256 % 256, n % 256]

def putU32 (n : Nat) : List Nat :=
  [n / 16777216 % 256, n / 65536 % 256, n / 256 % 256, n % 256]

def beU16 (l : List Nat) : Nat := l.foldl (fun acc b => acc * 256 + b) 0

def beU32 (l : List Nat) : Nat := l.foldl (fun acc b => acc * 256 + b) 0

def beU64 (l : List Nat) : Nat := l.foldl (fun acc b => acc * 256 + b) 0

/-! ## CRC16 / CRC32 (crc.go, listed in the repository's WORKER_SETUP.md) -/

def CRC16_POLY : Nat := 0x1021
def CRC32_POLY : Nat := 0xEDB88320

def crc16Shift (crc : Nat) : Nat :=
  if crc &&& 0x8000 ≠ 0 then ((crc <<< 1) ^^^ CRC16_POLY) % 65536
  else (crc <<< 1) % 65536

def crc16Rounds : Nat → Nat → Nat
  | 0, crc => crc
  | k+1, crc => crc16Rounds k (crc16Shift crc)

def CalculateCRC16 (data : List Nat) : Nat :=
  data.foldl (fun crc b => crc16Rounds 8 ((crc ^^^ ((b % 256) <<< 8)) % 65536)) 0

def crc32Shift (crc : Nat) : Nat :=
  if crc &&& 1 ≠ 0 then (crc >>> 1) ^^^ CRC32_POLY else crc >>> 1

def crc32Rounds : Nat → Nat → Nat
  | 0, crc => crc
  | k+1, crc => crc32Rounds k (crc32Shift crc)

def CalculateCRC32 (data : List Nat) : Nat :=
  (data.foldl (fun crc b => crc32Rounds 8 (crc ^^^ (b % 256))) 0xFFFFFFFF) ^^^ 0xFFFFFFFF

/-! ## Binary frame builder (frame_builder.go, BuildBinaryFrame and friends) -/

/-- Special set of the ZDLE escaping rule in BuildBinaryFrame:
ZDLE itself, the at-sign 0x40, 0x10 through 0x1A, 0x7F, 0x8D, 0x8A. -/
def needsEscape (b : Nat) : Prop :=
  b = ZDLE ∨ b = 0x40 ∨ (0x10 ≤ b ∧ b ≤ 0x1A) ∨ b = 0x7F ∨ b = 0x8D ∨ b = 0x8A

instance (b : Nat) : Decidable (needsEscape b) := by
  unfold needsEscape; infer_instance

def escapeData : List Nat → List Nat
  | [] => []
  | b :: rest =>
    if needsEscape b then ZDLE :: (b ^^^ ZDLE_ESC) :: escapeData rest
    else b :: escapeData rest

/-- BuildBinaryFrame of frame_builder.go: pad, ZDLE + format byte, raw
type byte, raw big-endian flags, raw f0-f3, escaped data with a
ZDLE+ZCRCE trailer when data is non-empty, then the CRC of the
selected width over everything after the two pad bytes. -/
def BuildBinaryFrame (frameType : Nat) (flags : Nat) (f0 f1 f2 f3 : Nat)
    (data : List Nat) (useCRC32 : Bool) : List Nat :=
  let withData :=
    [ZPAD, ZPAD] ++ (if useCRC32 then [ZDLE, ZBIN32] else [ZDLE, ZBIN]) ++
    [frameType % 256] ++ putU32 (flags % 4294967296) ++
    [f0 % 256, f1 % 256, f2 % 256, f3 % 256] ++
    (if data.length > 0 then escapeData data ++ [ZDLE, ZCRCE] else [])
  if useCRC32 then withData ++ putU32 (CalculateCRC32 (withData.drop 2))
  else withData ++ putU16 (CalculateCRC16 (withData.drop 2))

def BuildZDATAFrame (data : List Nat) (position : Nat) : List Nat :=
  BuildBinaryFrame FrameZDATA position 0 0 0 0 data true

/-- Decimal ASCII digits of a natural number, as fmt.Sprintf with
the d verb produces them. -/
def decimalBytes (n : Nat) : List Nat := (Nat.toDigits 10 n).map Char.toNat

/-- BuildZFILEFrameBinary: data is filename NUL size-in-ASCII-decimal
SP 0 SP 0 SP 0 NUL, wrapped in a binary CRC32 ZFILE frame. -/
def BuildZFILEFrameBinary (filename : List Nat) (size : Nat) : List Nat :=
  let data := filename ++ [0] ++ decimalBytes size ++
    [0x20, 0x30, 0x20, 0x30, 0x20, 0x30, 0]
  BuildBinaryFrame FrameZFILE 0 0 0 0 0 data true

def BuildZRINITFrame : List Nat :=
  BuildBinaryFrame FrameZRINIT (0x80 ||| 0x40 ||| 0x20 ||| 0x10) 0 0 0 0 [] true

def BuildZACKFrame (position : Nat) : List Nat :=
  BuildBinaryFrame FrameZACK 0 0 0 0 0 (putU32 position) true

def BuildZRPOSFrame (position : Nat) : List Nat :=
  BuildBinaryFrame FrameZRPOS 0 0 0 0 0 (putU32 position) true

def BuildZEOFFrame (position : Nat) : List Nat :=
  BuildBinaryFrame FrameZEOF 0 0 0 0 0 (putU32 position) true

def BuildZFINFrame : List Nat :=
  BuildBinaryFrame FrameZFIN 0 0 0 0 0 [] true

/-! ## Frame parser (frame.go) -/

/-- Decoded frame record, ZmodemFrame of frame.go.  The field named
FrameType in Go (the wire format byte ZHEX, ZBIN or ZBIN32) is
called fmtByte here to avoid clashing with the type field. -/
structure ZmodemFrame where
  type : Nat
  flags : Nat
  f0 : Nat
  f1 : Nat
  f2 : Nat
  f3 : Nat
  data : List Nat
  crc : Nat
  fmtByte : Nat
  deriving DecidableEq, Repr

inductive PState
  | idle
  | waitingZdle
  | readingFrame
  deriving DecidableEq, Repr

/-- Parser state: accumulator buffer, scanning state and current
wire format byte, as in FrameParser of frame.go.  The unused
expectingHex and frameBuffer fields are omitted; they are written
but never read by the source. -/
structure FrameParser where
  buffer : List Nat
  state : PState
  frameType : Nat
  deriving DecidableEq, Repr

def NewFrameParser : FrameParser := { buffer := [], state := .idle, frameType := 0 }

def mkParser (buf : List Nat) : FrameParser := { buffer := buf, state := .idle, frameType := 0 }

def AddData (p : FrameParser) (data : List Nat) : FrameParser :=
  { p with buffer := p.buffer ++ data }

def ResetParser (p : FrameParser) : FrameParser :=
  { p with buffer := [], state := .idle, frameType := 0 }

def lastN (n : Nat) (l : List Nat) : List Nat := l.drop (l.length - n)

/-- CleanupBuffer of frame.go: keep at most the last 512 bytes. -/
def CleanupBuffer (p : FrameParser) : FrameParser :=
  if p.buffer.length > 512 then { p with buffer := lastN 512 p.buffer } else p

/-- Outcome of a single read of the byte-oriented helpers: Go
returns (value, consumed, err) where consumed 0 with nil error means
the data is insufficient. -/
inductive BRes
  | err
  | more
  | ok (b : Nat) (consumed : Nat)
  deriving DecidableEq, Repr

/-- readZDLEEscapedByte of frame.go. -/
def readZDLEEscapedByte (buf : List Nat) (startPos : Nat) : BRes :=
  if startPos ≥ buf.length then .err
  else
    let b := buf.getD startPos 0
    if b = ZDLE then
      if startPos + 1 ≥ buf.length then .more
      else .ok ((buf.getD (startPos + 1) 0) ^^^ ZDLE_ESC) 2
    else .ok b 1

inductive BsRes
  | err
  | more
  | ok (bs : List Nat) (consumed : Nat)
  deriving DecidableEq, Repr

/-- readZDLEEscapedBytes of frame.go, count bytes starting at pos. -/
def readZDLEEscapedBytes (buf : List Nat) (pos : Nat) : Nat → BsRes
  | 0 => .ok [] 0
  | k+1 =>
    match readZDLEEscapedByte buf pos with
    | .err => .err
    | .more => .more
    | .ok b c =>
      match readZDLEEscapedBytes buf (pos + c) k with
      | .err => .err
      | .more => .more
      | .ok bs cs => .ok (b :: bs) (c + cs)

/-- Outcome of a payload scan of the ZDATA branch. -/
inductive ZdRes
  | more
  | done (data : List Nat) (pos : Nat)
  deriving DecidableEq, Repr

/-- Payload loop of the ZDATA branch of parseBinaryFrame: bytes up
to maxPos, stopping at a ZDLE plus subpacket end marker, undoing
ZDLE escapes along the way. -/
def readZDataPayload (buf : List Nat) (maxPos : Nat) : Nat → Nat → List Nat → ZdRes
  | 0, pos, acc => .done acc pos
  | fuel+1, pos, acc =>
    if pos < maxPos then
      let b := buf.getD pos 0
      if b = ZDLE then
        if pos + 1 < buf.length then
          let nxt := buf.getD (pos + 1) 0
          if nxt = ZCRCE ∨ nxt = ZCRCG ∨ nxt = ZCRCQ ∨ nxt = ZCRCW then
            .done acc (pos + 2)
          else if nxt = ZDLEE then
            readZDataPayload buf maxPos fuel (pos + 2) (acc ++ [ZDLE])
          else
            readZDataPayload buf maxPos fuel (pos + 2) (acc ++ [nxt ^^^ ZDLE_ESC])
        else .more
      else
        readZDataPayload buf maxPos fuel (pos + 1) (acc ++ [b])
    else .done acc pos

/-- Payload loop of the ZFILE branch of parseBinaryFrame: escaped
bytes up to the first NUL; a read error or shortage just breaks. -/
def readZFilePayload (buf : List Nat) : Nat → Nat → List Nat → (List Nat × Nat)
  | 0, pos, acc => (acc, pos)
  | fuel+1, pos, acc =>
    if pos < buf.length then
      match readZDLEEscapedByte buf pos with
      | .err => (acc, pos)
      | .more => (acc, pos)
      | .ok b c =>
        if b = 0 then (acc, pos + c)
        else readZFilePayload buf fuel (pos + c) (acc ++ [b])
    else (acc, pos)

/-- Payload loop of the ZACK and ZRPOS branch of parseBinaryFrame:
up to four escaped position bytes. -/
def readPosPayload (buf : List Nat) : Nat → Nat → List Nat → (List Nat × Nat)
  | 0, pos, acc => (acc, pos)
  | fuel+1, pos, acc =>
    if pos < buf.length ∧ acc.length < 4 then
      match readZDLEEscapedByte buf pos with
      | .err => (acc, pos)
      | .more => (acc, pos)
      | .ok b c => readPosPayload buf fuel (pos + c) (acc ++ [b])
    else (acc, pos)

/-- Outcome of parseBinaryFrame and parseHexFrame: Go returns
(frame, consumed, err), where a nil frame with nil error asks the
caller to wait for more data. -/
inductive FRes
  | err
  | more
  | ok (fr : ZmodemFrame) (consumed : Nat)
  deriving DecidableEq, Repr

/-- parseBinaryFrame of frame.go, operating on the parser buffer
with ft the current wire format byte.  Type, flags and f0-f3 are
read through the escape-aware readers; only ZDATA, ZFILE, ZACK and
ZRPOS get a payload scan; the trailing CRC of the width selected by
ft is read through the same escape-aware reader and never compared
with a recomputed value. -/
def parseBinaryFrame (ft : Nat) (buf : List Nat) : FRes :=
  match readZDLEEscapedByte buf 0 with
  | .err => .err
  | .more => .more
  | .ok tb c1 =>
    match readZDLEEscapedBytes buf c1 4 with
    | .err => .err
    | .more => .more
    | .ok flagsBytes c2 =>
      match readZDLEEscapedBytes buf (c1 + c2) 4 with
      | .err => .err
      | .more => .more
      | .ok fB c3 =>
        let pos0 := c1 + c2 + c3
        let crcSize := if ft = ZBIN32 then 4 else 2
        let step : ZdRes :=
          if tb = FrameZDATA then
            readZDataPayload buf (buf.length - crcSize) (buf.length + 1) pos0 []
          else if tb = FrameZFILE then
            let r := readZFilePayload buf (buf.length + 1) pos0 []
            .done r.1 r.2
          else if tb = FrameZACK ∨ tb = FrameZRPOS then
            let r := readPosPayload buf (buf.length + 1) pos0 []
            .done r.1 r.2
          else .done [] pos0
        match step with
        | .more => .more
        | .done data pos =>
          if ft = ZBIN32 then
            if pos ≥ buf.length then .more
            else
              match readZDLEEscapedBytes buf pos 4 with
              | .err => .more
              | .more => .more
              | .ok cb c4 =>
                .ok { type := tb, flags := beU32 flagsBytes,
                      f0 := fB.getD 0 0, f1 := fB.getD 1 0,
                      f2 := fB.getD 2 0, f3 := fB.getD 3 0,
                      data := data, crc := beU32 cb, fmtByte := ft } (pos + c4)
          else
            if pos ≥ buf.length then .more
            else
              match readZDLEEscapedBytes buf pos 2 with
              | .err => .more
              | .more => .more
              | .ok cb c4 =>
                .ok { type := tb, flags := beU32 flagsBytes,
                      f0 := fB.getD 0 0, f1 := fB.getD 1 0,
                      f2 := fB.getD 2 0, f3 := fB.getD 3 0,
                      data := data, crc := beU16 cb, fmtByte := ft } (pos + c4)

def isHexChar (b : Nat) : Prop :=
  (0x30 ≤ b ∧ b ≤ 0x39) ∨ (0x61 ≤ b ∧ b ≤ 0x66) ∨ (0x41 ≤ b ∧ b ≤ 0x46)

instance (b : Nat) : Decidable (isHexChar b) := by
  unfold isHexChar; infer_instance

def hexVal (b : Nat) : Nat :=
  if 0x30 ≤ b ∧ b ≤ 0x39 then b - 0x30
  else if 0x61 ≤ b ∧ b ≤ 0x66 then b - 0x61 + 10
  else b - 0x41 + 10

/-- Length of the leading run of ASCII hex characters. -/
def hexRun : List Nat → Nat
  | [] => 0
  | b :: rest => if isHexChar b then hexRun rest + 1 else 0

/-- Length of the leading run of CR and LF bytes. -/
def crlfRun : List Nat → Nat
  | [] => 0
  | b :: rest => if b = 0x0D ∨ b = 0x0A then crlfRun rest + 1 else 0

/-- Pairwise ASCII hex decoding, hex.DecodeString on an even run. -/
def decodeHexPairs : List Nat → List Nat
  | hi :: lo :: rest => (hexVal hi * 16 + hexVal lo) :: decodeHexPairs rest
  | _ => []

/-- Type mapping applied by parseHexFrame: wire 0x01, 0x03 and 0x09
land on the package constants FrameZRINIT, FrameZACK and FrameZRPOS;
every other byte is taken as is. -/
def hexTypeMap (tb : Nat) : Nat :=
  if tb = 0x01 then FrameZRINIT
  else if tb = 0x03 then FrameZACK
  else if tb = 0x09 then FrameZRPOS
  else tb

/-- parseHexFrame of frame.go: skip one non-hex sentinel byte, take
the contiguous ASCII hex run (at least 10 characters), hex-decode
it, read type and big-endian flags from the decoded bytes, map the
type, and also consume trailing CR and LF.  hex.DecodeString fails
on an odd-length run, which is the error path. -/
def parseHexFrame (buf : List Nat) : FRes :=
  match buf with
  | [] => .more
  | first :: _ =>
    let startIdx := if isHexChar first then 0 else 1
    if buf.length ≤ startIdx then .more
    else
      let run := hexRun (buf.drop startIdx)
      if run < 10 then .more
      else if run % 2 = 1 then .err
      else
        let decoded := decodeHexPairs ((buf.drop startIdx).take run)
        let hexEnd := startIdx + run
        let consumed := hexEnd + crlfRun (buf.drop hexEnd)
        .ok { type := hexTypeMap (decoded.getD 0 0),
              flags := beU32 (decoded.drop 1 |>.take 4),
              f0 := 0, f1 := 0, f2 := 0, f3 := 0,
              data := [], crc := 0, fmtByte := ZHEX } consumed

def parseFrameData (ft : Nat) (buf : List Nat) : FRes :=
  if ft = ZHEX then parseHexFrame buf else parseBinaryFrame ft buf

/-- First index at which two consecutive ZPAD bytes start, the frame
start search of the idle state of ParseFrame. -/
def findPad : List Nat → Option Nat
  | a :: b :: rest =>
    if a = ZPAD ∧ b = ZPAD then some 0
    else (findPad (b :: rest)).map (· + 1)
  | _ => none

/-- Result of one ParseFrame call: possibly a frame, the updated
parser, and whether the call returned an error. -/
structure PRes where
  frame : Option ZmodemFrame
  parser : FrameParser
  errored : Bool
  deriving DecidableEq, Repr

/-- Main loop of ParseFrame of frame.go, fuel-indexed.  The idle
state scans for ZPAD ZPAD, truncating an over-1024-byte buffer to
its last 256 bytes when no start is found; waitingZdle classifies
the byte after the pad into a wire format; readingFrame runs
parseFrameData and returns.  A parse error resets the parser. -/
def parseFrameLoop : Nat → FrameParser → PRes
  | 0, p => { frame := none, parser := p, errored := false }
  | fuel+1, p =>
    if p.buffer.length = 0 then { frame := none, parser := p, errored := false }
    else
      match p.state with
      | .idle =>
        if p.buffer.length < 2 then { frame := none, parser := p, errored := false }
        else
          match findPad p.buffer with
          | none =>
            if p.buffer.length > 1024 then
              { frame := none, parser := { p with buffer := lastN 256 p.buffer },
                errored := false }
            else { frame := none, parser := p, errored := false }
          | some i =>
            parseFrameLoop fuel
              { p with buffer := p.buffer.drop (i + 2), state := .waitingZdle }
      | .waitingZdle =>
        let b := p.buffer.getD 0 0
        if b = ZDLE then
          let rest := p.buffer.drop 1
          if rest.length = 0 then
            { frame := none, parser := { p with buffer := rest }, errored := false }
          else
            let nxt := rest.getD 0 0
            if nxt = ZHEX ∨ nxt = ZBIN ∨ nxt = ZBIN32 then
              parseFrameLoop fuel
                { p with buffer := rest.drop 1, state := .readingFrame, frameType := nxt }
            else if nxt = 0x42 then
              if rest.length ≥ 2 then
                if isHexChar (rest.getD 1 0) then
                  parseFrameLoop fuel
                    { p with buffer := rest.drop 1, state := .readingFrame, frameType := ZHEX }
                else
                  parseFrameLoop fuel
                    { p with buffer := rest.drop 1, state := .readingFrame, frameType := ZBIN32 }
              else { frame := none, parser := { p with buffer := rest }, errored := false }
            else
              parseFrameLoop fuel
                { p with buffer := rest, state := .readingFrame, frameType := ZBIN32 }
        else if b = ZHEX ∨ b = ZBIN ∨ b = ZBIN32 then
          parseFrameLoop fuel
            { p with buffer := p.buffer.drop 1, state := .readingFrame, frameType := b }
        else
          parseFrameLoop fuel { p with state := .idle }
      | .readingFrame =>
        let p1 :=
          if p.frameType = 0 then
            let b := p.buffer.getD 0 0
            if b = ZHEX ∨ b = ZBIN ∨ b = ZBIN32 then
              { p with buffer := p.buffer.drop 1, frameType := b }
            else { p with frameType := ZBIN32 }
          else p
        match parseFrameData p1.frameType p1.buffer with
        | .err => { frame := none, parser := ResetParser p1, errored := true }
        | .more => { frame := none, parser := p1, errored := false }
        | .ok fr consumed =>
          { frame := some fr,
            parser := { p1 with buffer := p1.buffer.drop consumed, state := .idle },
            errored := false }

/-- ParseFrame of frame.go.  The fuel covers the worst case of the
source loop: every pair of idle and waitingZdle iterations consumes
at least two buffer bytes, and readingFrame always returns. -/
def ParseFrame (p : FrameParser) : PRes := parseFrameLoop (p.buffer.length + 2) p

/-! ## Protocol engine (zmodem.go, ZmodemImpl) -/

/-- Engine state, ZmodemImpl of zmodem.go.  File I/O is embedded as
lists: in upload mode fileData carries the file being read with
filePos the read offset; in download mode fileData accumulates the
bytes written, with fileSynced recording the Sync call.  The state
field holds the same strings the source uses. -/
structure ZmodemImpl where
  fileData : List Nat
  filePos : Nat
  fileSynced : Bool
  fileSize : Nat
  inputBuf : List Nat
  outputBuf : List Nat
  state : String
  transferred : Nat
  mode : Nat
  parser : FrameParser
  filename : List Nat
  deriving DecidableEq, Repr

/-- NewZmodemImpl of zmodem.go.  Mode 0 uploads: the ZFILE frame for
the (base) filename and size is queued and the state starts at
sending_header.  Mode 1 downloads: an empty file is created, a
binary ZRINIT frame is queued and the state starts at
receiving_header. -/
def NewZmodemImpl (mode : Nat) (filename : List Nat) (contents : List Nat) : ZmodemImpl :=
  if mode = 0 then
    { fileData := contents, filePos := 0, fileSynced := false,
      fileSize := contents.length, inputBuf := [],
      outputBuf := BuildZFILEFrameBinary filename contents.length,
      state := "sending_header", transferred := 0, mode := 0,
      parser := NewFrameParser, filename := filename }
  else
    { fileData := [], filePos := 0, fileSynced := false,
      fileSize := 0, inputBuf := [], outputBuf := BuildZRINITFrame,
      state := "receiving_header", transferred := 0, mode := mode,
      parser := NewFrameParser, filename := filename }

/-- parseZFILEFrame of zmodem.go: the filename is the data up to the
first NUL when that NUL is at a positive index, else the whole data;
the size is read as an eight-byte big-endian integer after the NUL
when eight bytes are present, although the builder and the ZMODEM
wire put ASCII decimal digits there. -/
def parseZFILEFrame (z : ZmodemImpl) (fr : ZmodemFrame) : ZmodemImpl :=
  if fr.data.length > 0 then
    match fr.data.findIdx? (· = 0) with
    | some nullIdx =>
      if nullIdx > 0 then
        let z1 := { z with filename := fr.data.take nullIdx }
        if nullIdx + 1 + 8 ≤ fr.data.length then
          let size := beU64 ((fr.data.drop (nullIdx + 1)).take 8)
          if size > 0 then { z1 with fileSize := size } else z1
        else z1
      else { z with filename := fr.data }
    | none => { z with filename := fr.data }
  else z

/-- Frame dispatch of the download branch of FeedData.  The Bool is
false exactly when the source returns an error (ZNAK or ZABORT). -/
def handleFrameDownload (z : ZmodemImpl) (fr : ZmodemFrame) : ZmodemImpl × Bool :=
  if fr.type = FrameZRQINIT then (z, true)
  else if fr.type = FrameZSINIT then
    ({ z with outputBuf := z.outputBuf ++ BuildZACKFrame 0 }, true)
  else if fr.type = FrameZFILE then
    let z1 := parseZFILEFrame z fr
    let z2 := { z1 with state := "receiving_data" }
    ({ z2 with outputBuf := z2.outputBuf ++ BuildZACKFrame 0 }, true)
  else if fr.type = FrameZDATA then
    if z.state = "receiving_data" then
      if fr.data.length > 0 then
        let t := z.transferred + fr.data.length
        let z1 := { z with fileData := z.fileData ++ fr.data, transferred := t }
        ({ z1 with outputBuf := z1.outputBuf ++ BuildZRPOSFrame (t % 4294967296) }, true)
      else (z, true)
    else if z.state = "receiving_header" then
      if fr.data.length > 0 then
        let z1 := { z with state := "receiving_data", fileData := z.fileData ++ fr.data }
        ({ z1 with transferred := z1.transferred + fr.data.length }, true)
      else ({ z with state := "receiving_data" }, true)
    else (z, true)
  else if fr.type = FrameZEOF then
    let z1 := { z with fileSynced := true, state := "completed" }
    let ack := BuildZACKFrame (z.transferred % 4294967296)
    ({ z1 with outputBuf := z1.outputBuf ++ ack ++ BuildZFINFrame }, true)
  else if fr.type = FrameZFIN then
    ({ z with state := "completed", outputBuf := z.outputBuf ++ BuildZFINFrame }, true)
  else if fr.type = FrameZRINIT then (z, true)
  else if fr.type = FrameZACK then
    (if z.state = "sending_header" then { z with state := "sending_data" } else z, true)
  else if fr.type = FrameZNAK ∨ fr.type = FrameZABORT then (z, false)
  else (z, true)

/-- Frame dispatch of the upload branch of FeedData.  ZRINIT in the
idle or sending_header state re-queues the ZFILE frame when the
output buffer is empty and moves sending_header to sending_data;
ZACK moves sending_header to sending_data and sending_eof to
completed; ZRPOS moves sending_header to sending_data; ZNAK and
ZABORT are the error return. -/
def handleFrameUpload (z : ZmodemImpl) (fr : ZmodemFrame) : ZmodemImpl × Bool :=
  if fr.type = FrameZRINIT then
    if z.state = "idle" ∨ z.state = "sending_header" then
      let z1 :=
        if z.outputBuf.length = 0 then
          { z with outputBuf := BuildZFILEFrameBinary z.filename z.fileSize }
        else z
      if z1.state = "sending_header" then ({ z1 with state := "sending_data" }, true)
      else (z1, true)
    else (z, true)
  else if fr.type = FrameZACK then
    if z.state = "sending_header" then ({ z with state := "sending_data" }, true)
    else if z.state = "sending_eof" then ({ z with state := "completed" }, true)
    else (z, true)
  else if fr.type = FrameZRPOS then
    if z.state = "sending_header" then ({ z with state := "sending_data" }, true)
    else (z, true)
  else if fr.type = FrameZNAK ∨ fr.type = FrameZABORT then (z, false)
  else (z, true)

def handleFrame (z : ZmodemImpl) (fr : ZmodemFrame) : ZmodemImpl × Bool :=
  if z.mode = 1 then handleFrameDownload z fr else handleFrameUpload z fr

/-- Result of a FeedData call: updated engine, the Bool the call
returns (false on the ZNAK and ZABORT error), the number of frames
dispatched, and whether a decode error was hit. -/
structure FeedRes where
  z : ZmodemImpl
  ok : Bool
  dispatched : Nat
  decodeErr : Bool
  deriving DecidableEq, Repr

/-- Parse-and-dispatch loop of FeedData of zmodem.go: at most
maxIterations (one hundred) rounds; a ParseFrame error runs
CleanupBuffer and breaks without surfacing the error; an absent
frame breaks; a dispatched ZNAK or ZABORT returns the error. -/
def feedLoop : Nat → ZmodemImpl → FeedRes
  | 0, z => { z := z, ok := true, dispatched := 0, decodeErr := false }
  | fuel+1, z =>
    let r := ParseFrame z.parser
    if r.errored then
      { z := { z with parser := CleanupBuffer r.parser }, ok := true, dispatched := 0, decodeErr := true }
    else
      match r.frame with
      | none =>
        { z := { z with parser := r.parser }, ok := true, dispatched := 0, decodeErr := false }
      | some fr =>
        let z1 := { z with parser := r.parser }
        let h := handleFrame z1 fr
        if h.2 then
          let rest := feedLoop fuel h.1
          { rest with dispatched := rest.dispatched + 1 }
        else { z := h.1, ok := false, dispatched := 1, decodeErr := false }

def maxIterations : Nat := 100

/-- FeedData of zmodem.go: append to the input accumulator and the
parser, then run the bounded parse-and-dispatch loop. -/
def FeedData (z : ZmodemImpl) (data : List Nat) : FeedRes :=
  feedLoop maxIterations
    { z with inputBuf := z.inputBuf ++ data, parser := AddData z.parser data }

/-- GetOutputData of zmodem.go with a caller buffer of length
bufLen: drain the output buffer first; in upload mode and the
sending_data state read the next up-to-1024-byte chunk of the file
into a ZDATA frame carrying the current transferred count, spilling
through the output buffer when the caller buffer is too small, and
on end of file queue a ZEOF frame and move to sending_eof.  Returns
the updated engine and the bytes handed to the caller. -/
def GetOutputData (z : ZmodemImpl) (bufLen : Nat) : ZmodemImpl × List Nat :=
  if z.outputBuf.length > 0 ∧ min bufLen z.outputBuf.length > 0 then
    ({ z with outputBuf := z.outputBuf.drop bufLen }, z.outputBuf.take bufLen)
  else if z.mode = 0 then
    if z.state = "sending_header" then (z, [])
    else if z.state = "sending_data" then
      let n := min 1024 (z.fileData.length - z.filePos)
      let atEof := z.filePos ≥ z.fileData.length
      if n > 0 then
        let chunk := (z.fileData.drop z.filePos).take 1024
        let zdataFrame := BuildZDATAFrame chunk (z.transferred % 4294967296)
        let z1 := { z with filePos := z.filePos + n, transferred := z.transferred + n }
        if bufLen < zdataFrame.length then
          let spill := z.outputBuf ++ zdataFrame
          ({ z1 with outputBuf := spill.drop bufLen }, spill.take bufLen)
        else (z1, zdataFrame)
      else
        if atEof then
          if z.outputBuf.length = 0 then
            let z1 := { z with outputBuf := BuildZEOFFrame (z.transferred % 4294967296) }
            ({ z1 with state := "sending_eof" }, [])
          else (z, [])
        else (z, [])
    else (z, [])
  else (z, [])

/-! ## Driver runs: sequences of FeedData and GetOutputData calls -/

inductive Op
  | feed (d : List Nat)
  | pull (n : Nat)
  deriving DecidableEq, Repr

def runOp (z : ZmodemImpl) : Op → ZmodemImpl
  | .feed d => (FeedData z d).z
  | .pull n => (GetOutputData z n).1

def runOps (z : ZmodemImpl) (ops : List Op) : ZmodemImpl := ops.foldl runOp z

/-- Bytes handed to the caller over a run, pull calls only. -/
def runOutputs (z : ZmodemImpl) : List Op → List Nat
  | [] => []
  | op :: rest =>
    match op with
    | .feed d => runOutputs (runOp z (.feed d)) rest
    | .pull n => (GetOutputData z n).2 ++ runOutputs (runOp z (.pull n)) rest

/-! ## Handshake sniffer (detectZMODEMSequence of SSHManager) -/

inductive Direction
  | upload
  | download
  deriving DecidableEq, Repr

def szPattern : List Nat := [0x2A, 0x2A, 0x42, 0x30, 0x30]
def rzPattern : List Nat := [0x2A, 0x2A, 0x42, 0x30, 0x31]
def szPatternAlt1 : List Nat := [0x2A, 0x2A, 0x18, 0x42, 0x30, 0x30]
def rzPatternAlt1 : List Nat := [0x2A, 0x2A, 0x18, 0x42, 0x31, 0x30]
def szPatternAlt2 : List Nat := [0x2A, 0x18, 0x42, 0x30, 0x30]
def rzPatternAlt2 : List Nat := [0x2A, 0x18, 0x42, 0x30, 0x31]

def startsWithSeq : List Nat → List Nat → Bool
  | _, [] => true
  | [], _ :: _ => false
  | b :: bs, q :: qs => b = q && startsWithSeq bs qs

/-- Buffer.indexOf succeeds: the pattern occurs contiguously. -/
def containsSeq : List Nat → List Nat → Bool
  | [], pat => pat.isEmpty
  | b :: rest, pat => startsWithSeq (b :: rest) pat || containsSeq rest pat

def MAX_BUFFER_SIZE : Nat := 256

/-- detectZMODEMSequence of SSHManager: append the chunk to the
per-session window, trim the window to its last 256 bytes, look for
the three download patterns and then the three upload patterns, and
on a match clear the window and report the direction. -/
def detectZMODEMSequence (window data : List Nat) : Option Direction × List Nat :=
  let buf0 := window ++ data
  let buffer := if buf0.length > MAX_BUFFER_SIZE then lastN MAX_BUFFER_SIZE buf0 else buf0
  if containsSeq buffer szPattern || containsSeq buffer szPatternAlt1
      || containsSeq buffer szPatternAlt2 then
    (some .download, [])
  else if containsSeq buffer rzPattern || containsSeq buffer rzPatternAlt1
      || containsSeq buffer rzPatternAlt2 then
    (some .upload, [])
  else (none, buffer)

/-- Table of handshake marker patterns with the direction each one
identifies, the six variants of detectZMODEMSequence. -/
def patternTable : List (List Nat × Direction) :=
  [(szPattern, .download), (rzPattern, .upload), (szPatternAlt1, .download),
   (rzPatternAlt1, .upload), (szPatternAlt2, .download), (rzPatternAlt2, .upload)]

/-! ## Concrete wire frames and driver runs used by the theorems -/

/-- Binary ZACK frame as a peer would send it: wire type byte 0x03,
zero flags and aux, a four-byte position payload, and an arbitrary
CRC32 (the parser never checks it). -/
def zackWire : List Nat :=
  [0x2A, 0x2A, 0x18, 0x32, 0x03, 0, 0, 0, 0, 0, 0, 0, 0, 0, 0, 0, 0, 1, 2, 3, 4]

/-- Binary ZFILE frame carrying filename a, a NUL, then the ASCII
size field 5 0 0 0 and closing NUL, the subpacket trailer and an
arbitrary CRC32. -/
def zfileWire : List Nat :=
  [0x2A, 0x2A, 0x18, 0x32, 0x04, 0, 0, 0, 0, 0, 0, 0, 0, 0x61, 0x00,
   0x35, 0x20, 0x30, 0x20, 0x30, 0x20, 0x30, 0x00, 0x18, 0x68, 1, 2, 3, 4]

/-- Binary ZDATA frame carrying the five payload bytes A B C D E. -/
def zdataWire : List Nat :=
  [0x2A, 0x2A, 0x18, 0x32, 0x0A, 0, 0, 0, 0, 0, 0, 0, 0,
   0x41, 0x42, 0x43, 0x44, 0x45, 0x18, 0x68, 1, 2, 3, 4]

/-- Binary ZEOF frame with zero flags and aux and an arbitrary CRC32. -/
def zeofWire : List Nat :=
  [0x2A, 0x2A, 0x18, 0x32, 0x0B, 0, 0, 0, 0, 0, 0, 0, 0, 1, 2, 3, 4]

/-- ZmodemFrame the parser produces from zeofWire. -/
def zeofFrame : ZmodemFrame :=
  { type := 11, flags := 0, f0 := 0, f1 := 0, f2 := 0, f3 := 0,
    data := [], crc := 16909060, fmtByte := 0x32 }

/-- Hex-encoded ZRINIT: pad, ZDLE, the B sentinel, then the ASCII
hex run 0100000000 (type byte 0x01, zero flags). -/
def hexZrinitWire : List Nat :=
  [0x2A, 0x2A, 0x18, 0x42, 0x30, 0x31, 0x30, 0x30, 0x30, 0x30, 0x30, 0x30, 0x30, 0x30]

/-- Hex-encoded ZACK: ASCII hex run 0300000000. -/
def hexZackWire : List Nat :=
  [0x2A, 0x2A, 0x18, 0x42, 0x30, 0x33, 0x30, 0x30, 0x30, 0x30, 0x30, 0x30, 0x30, 0x30]

/-- Hex-encoded ZRPOS: ASCII hex run 0900000000. -/
def hexZrposWire : List Nat :=
  [0x2A, 0x2A, 0x18, 0x42, 0x30, 0x39, 0x30, 0x30, 0x30, 0x30, 0x30, 0x30, 0x30, 0x30]

/-- Binary ZRPOS frame: wire type byte 0x09 with a position payload. -/
def binZrposWire : List Nat :=
  [0x2A, 0x2A, 0x18, 0x32, 0x09, 0, 0, 0, 0, 0, 0, 0, 0, 0, 0, 0, 0, 1, 2, 3, 4]

/-- Binary frame with the standard wire ZRINIT type byte 0x01. -/
def binWireZrinit : List Nat :=
  [0x2A, 0x2A, 0x18, 0x32, 0x01, 0, 0, 0, 0, 0, 0, 0, 0, 1, 2, 3, 4]

/-- Binary frame with type byte 0x00, which is what this package's
own BuildZRINITFrame puts on the wire for FrameZRINIT. -/
def binType0Wire : List Nat :=
  [0x2A, 0x2A, 0x18, 0x32, 0x00, 0, 0, 0, 0, 0, 0, 0, 0, 1, 2, 3, 4]

/-- Upload session of the empty file named a. -/
def upl0 : ZmodemImpl := NewZmodemImpl 0 [0x61] []

/-- Driver schedule of the zero-byte upload: drain the queued ZFILE,
receive the peer ack, poll twice (the first poll hits end of file
and queues ZEOF, the second drains it), receive the final ack. -/
def c3ops : List Op :=
  [.pull 1024, .feed zackWire, .pull 1024, .pull 1024, .feed zackWire]

/-- Upload session of the three-byte file named a. -/
def upl3 : ZmodemImpl := NewZmodemImpl 0 [0x61] [1, 2, 3]

/-- Download session; the local path is chosen by the caller, the
remote name arrives in the ZFILE frame. -/
def dl0 : ZmodemImpl := NewZmodemImpl 1 [] []

def dl1 : ZmodemImpl := (FeedData dl0 zfileWire).z

def dl2 : ZmodemImpl := (FeedData dl1 zdataWire).z

def dl3 : ZmodemImpl := (FeedData dl2 zeofWire).z

/-- Head of a binary ZFIN frame in ZBIN32 format, up to the point
where the four CRC bytes follow: pad pad, ZDLE, ZBIN32, type 8,
zero flags, zero aux. -/
def c9head : List Nat := [0x2A, 0x2A, 0x18, 0x32, 0x08, 0, 0, 0, 0, 0, 0, 0, 0]

/-- States from which an upload session can no longer avoid having
been in sending_data: sending_eof and completed. -/
def isHighState (s : String) : Prop := s = "sending_eof" ∨ s = "completed"

instance (s : String) : Decidable (isHighState s) := by
  unfold isHighState; infer_instance

/-! ## Claim theorems -/

/-- Claim C1 (refuted; the code loses the payload): BuildZEOFFrame 0
encodes the four-byte payload 0 0 0 0, yet running ParseFrame on the
encoder's exact output returns the ZEOF frame with an empty payload:
parseBinaryFrame has no payload scan for ZEOF, so the four encoded
payload bytes are consumed as the CRC field instead, and the
round-trip decode(encode(frame)) = frame fails. -/
theorem c1_zeof_roundtrip_loses_payload :
    BuildZEOFFrame 0 = BuildBinaryFrame FrameZEOF 0 0 0 0 0 [0, 0, 0, 0] true ∧
    (ParseFrame (mkParser (BuildZEOFFrame 0))).frame =
      some { type := FrameZEOF, flags := 0, f0 := 0, f1 := 0, f2 := 0, f3 := 0,
             data := [], crc := 0, fmtByte := ZBIN32 } ∧
    ([0, 0, 0, 0] : List Nat) ≠ [] := by
  decide

/-- Claim C2 (refuted; flags bytes are not escaped): building a ZFIN
frame whose flags value is 0x18 emits the raw byte 0x18 at the
flags position, not the two-byte ZDLE escape pair 0x18 0x58 that the
escaping rule produces for that byte, as escapeData shows. -/
theorem c2_flags_bytes_emitted_raw :
    BuildBinaryFrame FrameZFIN 0x18 0 0 0 0 [] true =
      [0x2A, 0x2A, 0x18, 0x32, 0x08, 0x00, 0x00, 0x00, 0x18,
       0x00, 0x00, 0x00, 0x00, 248, 252, 184, 60] ∧
    escapeData [0x18] = [0x18, 0x58] := by
  decide

/-- Claim C3 counterexample: in the zero-byte upload run the session
does reach completed, but the engine's state is sending_data right
after the peer's first ack, so the session does not reach Completed
without the state ever being sending_data. -/
theorem c3_cex_passes_through_sending_data :
    (runOps upl0 c3ops).state = "completed" ∧
    (runOps upl0 (c3ops.take 2)).state = "sending_data" := by
  decide

/-- Helper: parseZFILEFrame never touches the mode. -/
theorem parseZFILEFrame_mode (z : ZmodemImpl) (fr : ZmodemFrame) :
    (parseZFILEFrame z fr).mode = z.mode := by
  unfold parseZFILEFrame
  split
  · split
    · dsimp only
      split_ifs <;> rfl
    · rfl
  · rfl

/-- Helper: the upload dispatch never touches the mode. -/
theorem handleFrameUpload_mode (z : ZmodemImpl) (fr : ZmodemFrame) :
    (handleFrameUpload z fr).1.mode = z.mode := by
  unfold handleFrameUpload
  dsimp only
  split_ifs <;> rfl

/-- Helper: the download dispatch never touches the mode. -/
theorem handleFrameDownload_mode (z : ZmodemImpl) (fr : ZmodemFrame) :
    (handleFrameDownload z fr).1.mode = z.mode := by
  unfold handleFrameDownload
  have hz := parseZFILEFrame_mode z fr
  dsimp only
  split_ifs <;> first | rfl | (dsimp only; omega)

/-- Helper: frame dispatch never touches the mode. -/
theorem handleFrame_mode (z : ZmodemImpl) (fr : ZmodemFrame) :
    (handleFrame z fr).1.mode = z.mode := by
  unfold handleFrame
  split
  · exact handleFrameDownload_mode z fr
  · exact handleFrameUpload_mode z fr

/-- Helper: the parse-and-dispatch loop never touches the mode. -/
theorem feedLoop_mode (fuel : Nat) (z : ZmodemImpl) :
    (feedLoop fuel z).z.mode = z.mode := by
  induction fuel generalizing z with
  | zero => simp [feedLoop]
  | succ n ih =>
    unfold feedLoop
    dsimp only
    split
    · rfl
    · split
      · rfl
      · rename_i fr heq
        split
        · exact (ih _).trans (handleFrame_mode _ _)
        · exact handleFrame_mode _ _

/-- Helper: neither FeedData nor GetOutputData touches the mode. -/
theorem runOp_mode (z : ZmodemImpl) (op : Op) : (runOp z op).mode = z.mode := by
  cases op with
  | feed d => exact feedLoop_mode maxIterations _
  | pull n =>
    show (GetOutputData z n).1.mode = z.mode
    unfold GetOutputData
    dsimp only
    split_ifs <;> rfl

/-- Helper: in upload mode the dispatch is the upload dispatch. -/
theorem handleFrame_eq_upload (z : ZmodemImpl) (fr : ZmodemFrame) (hm : z.mode = 0) :
    handleFrame z fr = handleFrameUpload z fr := by
  unfold handleFrame
  rw [hm]
  simp

/-- Helper: the upload dispatch only reaches sending_eof or completed from a state that was already one of the two (completed is set only from sending_eof, and sending_eof is never set by the dispatch). -/
theorem handleFrameUpload_high (z : ZmodemImpl) (fr : ZmodemFrame)
    (h : isHighState (handleFrameUpload z fr).1.state) : isHighState z.state := by
  unfold handleFrameUpload at h
  dsimp only at h
  split_ifs at h <;>
    first
      | (dsimp only at h; exact h)
      | (dsimp only at h; exact absurd h (by decide))
      | (left; assumption)

/-- Helper: an upload-mode parse-and-dispatch loop ends in sending_eof or completed only if it started there. -/
theorem feedLoop_high (fuel : Nat) (z : ZmodemImpl) (hm : z.mode = 0)
    (h : isHighState (feedLoop fuel z).z.state) : isHighState z.state := by
  induction fuel generalizing z with
  | zero => simpa [feedLoop] using h
  | succ n ih =>
    unfold feedLoop at h
    dsimp only at h
    split at h
    · exact h
    · split at h
      · exact h
      · rename_i fr heq
        set z1 : ZmodemImpl := { z with parser := (ParseFrame z.parser).parser } with hz1
        have hm1 : z1.mode = 0 := hm
        rw [handleFrame_eq_upload z1 fr hm1] at h
        split at h
        · have hm2 : (handleFrameUpload z1 fr).1.mode = 0 := by
            rw [handleFrameUpload_mode]; exact hm1
          exact handleFrameUpload_high z1 fr (ih _ hm2 h)
        · exact handleFrameUpload_high z1 fr h

/-- Helper: GetOutputData ends in sending_eof or completed only from such a state or from sending_data (the only place sending_eof is ever set). -/
theorem GetOutputData_high (z : ZmodemImpl) (n : Nat)
    (h : isHighState (GetOutputData z n).1.state) :
    isHighState z.state ∨ z.state = "sending_data" := by
  unfold GetOutputData at h
  dsimp only at h
  split_ifs at h <;>
    first
      | (dsimp only at h; exact Or.inl h)
      | (right; assumption)

/-- Helper: one driver step of an upload session ends in sending_eof or completed only from such a state or from sending_data. -/
theorem runOp_high (z : ZmodemImpl) (op : Op) (hm : z.mode = 0)
    (h : isHighState (runOp z op).state) :
    isHighState z.state ∨ z.state = "sending_data" := by
  cases op with
  | feed d =>
    exact Or.inl (feedLoop_high maxIterations
      { z with inputBuf := z.inputBuf ++ d, parser := AddData z.parser d } hm h)
  | pull n => exact GetOutputData_high z n h

/-- Helper: over any driver run of an upload session, ending in sending_eof or completed requires either starting there or having been in sending_data at some point of the run. -/
theorem runOps_high_requires_sending_data (ops : List Op) :
    ∀ z : ZmodemImpl, z.mode = 0 → isHighState (runOps z ops).state →
      isHighState z.state ∨
        ∃ k, k ≤ ops.length ∧ (runOps z (ops.take k)).state = "sending_data" := by
  induction ops with
  | nil => intro z hm h; exact Or.inl (by simpa [runOps] using h)
  | cons op rest ih =>
    intro z hm h
    have hstep : runOps z (op :: rest) = runOps (runOp z op) rest := rfl
    rw [hstep] at h
    have hm1 : (runOp z op).mode = 0 := by rw [runOp_mode]; exact hm
    rcases ih (runOp z op) hm1 h with hh | ⟨k, hk, hs⟩
    · rcases runOp_high z op hm hh with hz | hz
      · exact Or.inl hz
      · exact Or.inr ⟨0, Nat.zero_le _, by simpa [runOps] using hz⟩
    · refine Or.inr ⟨k + 1, Nat.succ_le_succ hk, ?_⟩
      have ht : (op :: rest).take (k + 1) = op :: rest.take k := rfl
      rw [ht]
      exact hs

/-- Claim C3 as amended: the zero-byte upload emits the ZFILE frame
and then immediately the ZEOF frame (those are exactly the bytes the
run produces, with nothing in between) and reaches completed, but a
completed upload session necessarily passed through sending_data:
every driver run of an upload session that starts outside
sending_eof and completed and ends completed was in sending_data at
some point, and the concrete zero-byte run does exactly that on the
peer ack before moving to sending_eof. -/
theorem c3_amended_zero_byte_upload :
    (∀ (z : ZmodemImpl) (ops : List Op), z.mode = 0 → ¬ isHighState z.state →
      (runOps z ops).state = "completed" →
      ∃ k, k ≤ ops.length ∧ (runOps z (ops.take k)).state = "sending_data") ∧
    upl0.fileSize = 0 ∧ upl0.state = "sending_header" ∧
    runOutputs upl0 c3ops = BuildZFILEFrameBinary [0x61] 0 ++ BuildZEOFFrame 0 ∧
    (runOps upl0 (c3ops.take 2)).state = "sending_data" ∧
    (runOps upl0 (c3ops.take 3)).state = "sending_eof" ∧
    (runOps upl0 c3ops).state = "completed" := by
  refine ⟨?_, by decide, by decide, by decide, by decide, by decide, by decide⟩
  intro z ops hm hs hc
  rcases runOps_high_requires_sending_data ops z hm (Or.inr hc) with h1 | h2
  · exact absurd h1 hs
  · exact h2

/-- Witness for claim C3: the universal conjunct applied to the
concrete zero-byte upload run. -/
theorem c3_amended_zero_byte_upload_witness :
    (upl0.mode = 0 ∧ ¬ isHighState upl0.state ∧ (runOps upl0 c3ops).state = "completed") ∧
    (∃ k, k ≤ c3ops.length ∧ (runOps upl0 (c3ops.take k)).state = "sending_data") :=
  ⟨⟨by decide, by decide, by decide⟩,
   c3_amended_zero_byte_upload.1 upl0 c3ops (by decide) (by decide) (by decide)⟩

/-- Claim C4 (refuted for downloads): a normal error-free download
of five bytes ends completed with the transferred counter at five
while the session's fileSize is still zero, because the ZFILE size
field never reaches parseZFILEFrame (the frame parser stops the
ZFILE payload at the first NUL) and parseZFILEFrame would read it as
an eight-byte big-endian integer anyway. -/
theorem c4_completed_download_size_mismatch :
    (FeedData dl0 zfileWire).ok = true ∧ (FeedData dl1 zdataWire).ok = true ∧
    (FeedData dl2 zeofWire).ok = true ∧
    dl3.state = "completed" ∧ dl3.transferred = 5 ∧ dl3.fileSize = 0 ∧
    dl3.transferred ≠ dl3.fileSize ∧
    dl3.fileData = [0x41, 0x42, 0x43, 0x44, 0x45] := by
  decide

/-- Claim C5 counterexample: a binary frame with the standard wire
ZRINIT type byte 0x01 decodes to FrameZRQINIT, which the upload
dispatch ignores, so the engine stays in sending_header instead of
moving to sending_data. -/
theorem c5_cex_binary_wire_zrinit_ignored :
    upl3.state = "sending_header" ∧
    (ParseFrame (mkParser binWireZrinit)).frame.map ZmodemFrame.type =
      some FrameZRQINIT ∧
    (FeedData upl3 binWireZrinit).ok = true ∧
    (FeedData upl3 binWireZrinit).z.state = "sending_header" := by
  decide

/-- Claim C5 as amended: in sending_header, a hex-encoded ZRINIT,
ZACK or ZRPOS and a binary-encoded ZACK or ZRPOS all move the
engine to sending_data, as does a binary frame with type byte 0x00
(the encoding this package itself uses for FrameZRINIT); only the
standard binary wire ZRINIT type byte 0x01 is ignored because it
decodes to FrameZRQINIT. -/
theorem c5_amended_header_ack_transitions :
    upl3.state = "sending_header" ∧
    (FeedData upl3 hexZrinitWire).z.state = "sending_data" ∧
    (FeedData upl3 hexZackWire).z.state = "sending_data" ∧
    (FeedData upl3 hexZrposWire).z.state = "sending_data" ∧
    (FeedData upl3 zackWire).z.state = "sending_data" ∧
    (FeedData upl3 binZrposWire).z.state = "sending_data" ∧
    (FeedData upl3 binType0Wire).z.state = "sending_data" ∧
    (FeedData upl3 binWireZrinit).z.state = "sending_header" := by
  decide

/-- Claim C6: whenever the download dispatch receives a ZEOF frame
it returns without error, syncs the file, moves the state to
completed and appends to the output buffer first the ZACK frame
carrying the transferred count and then the ZFIN frame; the
end-to-end download run confirms the same through FeedData on the
ZEOF wire bytes. -/
theorem c6_zeof_acks_and_completes (z : ZmodemImpl) (fr : ZmodemFrame)
    (h : fr.type = FrameZEOF) :
    (handleFrameDownload z fr).2 = true ∧
    (handleFrameDownload z fr).1.fileSynced = true ∧
    (handleFrameDownload z fr).1.state = "completed" ∧
    (handleFrameDownload z fr).1.outputBuf =
      z.outputBuf ++ BuildZACKFrame (z.transferred % 4294967296) ++ BuildZFINFrame ∧
    (FeedData dl2 zeofWire).ok = true ∧
    (FeedData dl2 zeofWire).z.fileSynced = true ∧
    (FeedData dl2 zeofWire).z.state = "completed" ∧
    (FeedData dl2 zeofWire).z.outputBuf =
      dl2.outputBuf ++ BuildZACKFrame 5 ++ BuildZFINFrame := by
  refine ⟨?_, ?_, ?_, ?_, by decide, by decide, by decide, by decide⟩ <;>
    simp [handleFrameDownload, h, FrameZRQINIT, FrameZSINIT, FrameZFILE, FrameZDATA,
      FrameZEOF, FrameZFIN, FrameZRINIT, FrameZACK, FrameZNAK, FrameZABORT]

/-- Witness for claim C6: the ZEOF dispatch theorem applied to the
download session that has received five data bytes and to the frame
ParseFrame produces from zeofWire. -/
theorem c6_zeof_acks_and_completes_witness :
    zeofFrame.type = FrameZEOF ∧
    ((handleFrameDownload dl2 zeofFrame).2 = true ∧
     (handleFrameDownload dl2 zeofFrame).1.fileSynced = true ∧
     (handleFrameDownload dl2 zeofFrame).1.state = "completed" ∧
     (handleFrameDownload dl2 zeofFrame).1.outputBuf =
       dl2.outputBuf ++ BuildZACKFrame (dl2.transferred % 4294967296) ++ BuildZFINFrame ∧
     (FeedData dl2 zeofWire).ok = true ∧
     (FeedData dl2 zeofWire).z.fileSynced = true ∧
     (FeedData dl2 zeofWire).z.state = "completed" ∧
     (FeedData dl2 zeofWire).z.outputBuf =
       dl2.outputBuf ++ BuildZACKFrame 5 ++ BuildZFINFrame) :=
  ⟨by decide, c6_zeof_acks_and_completes dl2 zeofFrame (by decide)⟩

/-- Helper: CleanupBuffer leaves at most 512 bytes in the
accumulator. -/
theorem cleanupBuffer_length_le (p : FrameParser) :
    (CleanupBuffer p).buffer.length ≤ 512 := by
  unfold CleanupBuffer lastN
  split
  · simp only [List.length_drop]
    omega
  · omega

/-- Helper: the parse-and-dispatch loop dispatches at most as many
frames as it has fuel. -/
theorem feedLoop_dispatched_le (fuel : Nat) (z : ZmodemImpl) :
    (feedLoop fuel z).dispatched ≤ fuel := by
  induction fuel generalizing z with
  | zero => simp [feedLoop]
  | succ n ih =>
    unfold feedLoop
    dsimp only
    split
    · exact Nat.zero_le _
    · split
      · exact Nat.zero_le _
      · split
        · exact Nat.succ_le_succ (ih _)
        · exact Nat.succ_le_succ (Nat.zero_le n)

/-- Helper: when the parse-and-dispatch loop hits a decode error it
returns the non-error result and the accumulator has been cut to at
most 512 bytes. -/
theorem feedLoop_decode_error_contained (fuel : Nat) (z : ZmodemImpl) :
    (feedLoop fuel z).decodeErr = true →
      (feedLoop fuel z).ok = true ∧ (feedLoop fuel z).z.parser.buffer.length ≤ 512 := by
  induction fuel generalizing z with
  | zero => intro h; simp [feedLoop] at h
  | succ n ih =>
    unfold feedLoop
    dsimp only
    split
    · intro _; exact ⟨rfl, cleanupBuffer_length_le _⟩
    · split
      · intro h; simp at h
      · split
        · intro h
          simp only at h
          exact ih _ h
        · intro h; simp at h

/-- Claim C7: one FeedData call dispatches at most maxIterations
(one hundred) frames, and when ParseFrame reports a decode error the
call still returns without an error while the parser accumulator is
left truncated to a bounded tail of at most 512 bytes. -/
theorem c7_feed_bounded_and_decode_error_contained (z : ZmodemImpl) (d : List Nat) :
    (FeedData z d).dispatched ≤ maxIterations ∧
    ((FeedData z d).decodeErr = true →
      (FeedData z d).ok = true ∧ (FeedData z d).z.parser.buffer.length ≤ 512) :=
  ⟨feedLoop_dispatched_le maxIterations _, feedLoop_decode_error_contained maxIterations _⟩

/-- Witness for claim C7: a truncated binary frame (pad, ZDLE,
ZBIN32, type byte and nothing else) makes ParseFrame fail inside the
flags read, and the FeedData call that received it reports success
with an in-bounds accumulator. -/
theorem c7_feed_bounded_witness :
    (FeedData dl0 [0x2A, 0x2A, 0x18, 0x32, 0x0B]).dispatched ≤ maxIterations ∧
    (FeedData dl0 [0x2A, 0x2A, 0x18, 0x32, 0x0B]).decodeErr = true ∧
    ((FeedData dl0 [0x2A, 0x2A, 0x18, 0x32, 0x0B]).ok = true ∧
     (FeedData dl0 [0x2A, 0x2A, 0x18, 0x32, 0x0B]).z.parser.buffer.length ≤ 512) :=
  ⟨(c7_feed_bounded_and_decode_error_contained dl0 [0x2A, 0x2A, 0x18, 0x32, 0x0B]).1,
   by decide,
   (c7_feed_bounded_and_decode_error_contained dl0 [0x2A, 0x2A, 0x18, 0x32, 0x0B]).2 (by decide)⟩

/-- Claim C8 counterexample: the marker split of the ASCII download
pattern into the two chunks asterisk asterisk B and 0 0 is detected
on the second call when the chunks arrive back to back, but a single
other byte fed in between (well within the window bound) breaks the
pattern's contiguity in the window and detection fails on the call
that delivers the second chunk. -/
theorem c8_cex_intervening_byte_breaks_detection :
    (detectZMODEMSequence [] [0x2A, 0x2A, 0x42]).1 = none ∧
    (detectZMODEMSequence [0x2A, 0x2A, 0x42] [0x30, 0x30]).1 = some Direction.download ∧
    (detectZMODEMSequence [0x2A, 0x2A, 0x42] [0x41]).1 = none ∧
    (detectZMODEMSequence [0x2A, 0x2A, 0x42, 0x41] [0x30, 0x30]).1 = none := by
  decide

/-- Claim C8 as amended: every recognized handshake pattern split at
every possible byte boundary into two chunks fed back to back (with
no other bytes in between) goes undetected on the first call and is
detected, with its direction, on the second; the sniffer window
never holds more than 256 bytes; and a match clears the window. -/
theorem c8_amended_split_detection :
    (∀ p ∈ patternTable, ∀ i < p.1.length, 0 < i →
      (detectZMODEMSequence [] (p.1.take i)).1 = none ∧
      (detectZMODEMSequence (detectZMODEMSequence [] (p.1.take i)).2 (p.1.drop i)).1 =
        some p.2) ∧
    (∀ w d : List Nat, ((detectZMODEMSequence w d).2).length ≤ MAX_BUFFER_SIZE) ∧
    (∀ w d : List Nat, (detectZMODEMSequence w d).1 ≠ none →
      (detectZMODEMSequence w d).2 = []) := by
  refine ⟨by decide, ?_, ?_⟩
  · intro w d
    unfold detectZMODEMSequence
    dsimp only
    split
    · split
      · simp
      · split
        · simp
        · simp only [lastN, List.length_drop]
          omega
    · split
      · simp
      · split
        · simp
        · simp only
          omega
  · intro w d
    unfold detectZMODEMSequence
    dsimp only
    split
    · split
      · intro _; rfl
      · split
        · intro _; rfl
        · intro h; exact absurd rfl h
    · split
      · intro _; rfl
      · split
        · intro _; rfl
        · intro h; exact absurd rfl h

/-- Helper: parseZFILEFrame never touches the transferred counter. -/
theorem parseZFILEFrame_transferred (z : ZmodemImpl) (fr : ZmodemFrame) :
    (parseZFILEFrame z fr).transferred = z.transferred := by
  unfold parseZFILEFrame
  split
  · split
    · dsimp only
      split_ifs <;> rfl
    · rfl
  · rfl

/-- Helper: the download dispatch never decreases the transferred counter. -/
theorem handleFrameDownload_transferred_mono (z : ZmodemImpl) (fr : ZmodemFrame) :
    z.transferred ≤ (handleFrameDownload z fr).1.transferred := by
  unfold handleFrameDownload
  have hz := parseZFILEFrame_transferred z fr
  dsimp only
  split_ifs <;> first | omega | (dsimp only; omega)

/-- Helper: the upload dispatch never decreases the transferred counter. -/
theorem handleFrameUpload_transferred_mono (z : ZmodemImpl) (fr : ZmodemFrame) :
    z.transferred ≤ (handleFrameUpload z fr).1.transferred := by
  unfold handleFrameUpload
  dsimp only
  split_ifs <;> first | omega | (dsimp only; omega)

/-- Helper: no frame dispatch ever decreases the transferred counter. -/
theorem handleFrame_transferred_mono (z : ZmodemImpl) (fr : ZmodemFrame) :
    z.transferred ≤ (handleFrame z fr).1.transferred := by
  unfold handleFrame
  split
  · exact handleFrameDownload_transferred_mono z fr
  · exact handleFrameUpload_transferred_mono z fr

/-- Helper: the parse-and-dispatch loop never decreases the transferred counter. -/
theorem feedLoop_transferred_mono (fuel : Nat) (z : ZmodemImpl) :
    z.transferred ≤ (feedLoop fuel z).z.transferred := by
  induction fuel generalizing z with
  | zero => simp [feedLoop]
  | succ n ih =>
    unfold feedLoop
    dsimp only
    split
    · exact Nat.le_refl _
    · split
      · exact Nat.le_refl _
      · rename_i fr heq
        split
        · exact Nat.le_trans
            (handleFrame_transferred_mono { z with parser := (ParseFrame z.parser).parser } fr)
            (ih _)
        · exact handleFrame_transferred_mono { z with parser := (ParseFrame z.parser).parser } fr

/-- Along every FeedData call the transferred counter is monotone non-decreasing; this is the half of the transferred-counter claim the code does satisfy. -/
theorem FeedData_transferred_mono (z : ZmodemImpl) (d : List Nat) :
    z.transferred ≤ (FeedData z d).z.transferred :=
  feedLoop_transferred_mono maxIterations
    { z with inputBuf := z.inputBuf ++ d, parser := AddData z.parser d }

/-- Along every GetOutputData call the transferred counter is monotone non-decreasing. -/
theorem GetOutputData_transferred_mono (z : ZmodemImpl) (n : Nat) :
    z.transferred ≤ (GetOutputData z n).1.transferred := by
  unfold GetOutputData
  dsimp only
  split_ifs <;> (try dsimp only) <;> omega

/-- Claim C9: the binary decoder stores whatever CRC arrives on the
wire and never compares it with a recomputed checksum: for every
four CRC bytes (outside the escape byte, which the wire encoding
would escape), ParseFrame on the ZFIN frame body followed by those
bytes succeeds with the same type, flags, aux and payload, and the
frame's crc field is just the big-endian value read, so acceptance
does not depend on the CRC being correct. -/
theorem c9_crc_read_but_never_validated (a b c d : Nat)
    (ha : a ≠ ZDLE) (hb : b ≠ ZDLE) (hc : c ≠ ZDLE) (hd : d ≠ ZDLE) :
    ParseFrame (mkParser (c9head ++ [a, b, c, d])) =
      { frame := some { type := FrameZFIN, flags := 0, f0 := 0, f1 := 0, f2 := 0, f3 := 0,
                        data := [], crc := beU32 [a, b, c, d], fmtByte := ZBIN32 },
        parser := { buffer := [], state := .idle, frameType := ZBIN32 },
        errored := false } := by
  simp only [ZDLE] at ha hb hc hd
  simp [ParseFrame, parseFrameLoop, mkParser, c9head, findPad, parseFrameData,
    parseBinaryFrame, readZDLEEscapedBytes, readZDLEEscapedByte, beU32, List.getD,
    ZDLE, ZPAD, ZHEX, ZBIN, ZBIN32, ZDLE_ESC, FrameZDATA, FrameZFILE, FrameZACK,
    FrameZRPOS, FrameZFIN, ha, hb, hc, hd]

/-- Witness for claim C9: the theorem applied at the all-zero CRC,
which is not the checksum of this frame's contents (that checksum is
CalculateCRC16 or CalculateCRC32 of the bytes after the pad, both
non-zero here), yet the frame is accepted. -/
theorem c9_crc_read_but_never_validated_witness :
    ParseFrame (mkParser (c9head ++ [0, 0, 0, 0])) =
      { frame := some { type := FrameZFIN, flags := 0, f0 := 0, f1 := 0, f2 := 0, f3 := 0,
                        data := [], crc := beU32 [0, 0, 0, 0], fmtByte := ZBIN32 },
        parser := { buffer := [], state := .idle, frameType := ZBIN32 },
        errored := false } :=
  c9_crc_read_but_never_validated 0 0 0 0 (by decide) (by decide) (by decide) (by decide)

/-- Claim C10: decoding a binary frame stores the raw wire type byte
in the frame's type with no remapping (shown for every byte value
outside the escape byte and the four types that trigger a payload
scan, over an otherwise fixed frame body), while the hex decoder
remaps wire 0x01, 0x03 and 0x09 to FrameZRINIT, FrameZACK and
FrameZRPOS; since the package numbers FrameZRINIT as 0 and
FrameZRQINIT as 1, the reverse of the wire numbering, a binary frame
with the standard wire ZRINIT type byte 0x01 decodes to
FrameZRQINIT while the hex-encoded ZRINIT decodes to FrameZRINIT. -/
theorem c10_binary_raw_type_hex_remapped :
    (∀ t, t < 256 →
      ¬(t = ZDLE ∨ t = FrameZACK ∨ t = FrameZFILE ∨ t = FrameZRPOS ∨ t = FrameZDATA) →
      (ParseFrame (mkParser [0x2A, 0x2A, 0x18, 0x32, t, 0, 0, 0, 0, 0, 0, 0, 0, 1, 2, 3, 4])).frame.map
        ZmodemFrame.type = some t) ∧
    hexTypeMap 0x01 = FrameZRINIT ∧
    hexTypeMap 0x03 = FrameZACK ∧
    hexTypeMap 0x09 = FrameZRPOS ∧
    FrameZRINIT = 0 ∧ FrameZRQINIT = 1 ∧
    (ParseFrame (mkParser binWireZrinit)).frame.map ZmodemFrame.type = some FrameZRQINIT ∧
    (ParseFrame (mkParser hexZrinitWire)).frame.map ZmodemFrame.type = some FrameZRINIT := by
  refine ⟨by decide, by decide, by decide, by decide, by decide, by decide, by decide, by decide⟩

/-- Witness for claim C10: the universally quantified conjunct
applied at the wire ZRINIT type byte 0x01, which lands on
FrameZRQINIT. -/
theorem c10_binary_raw_type_witness :
    (ParseFrame (mkParser [0x2A, 0x2A, 0x18, 0x32, 1, 0, 0, 0, 0, 0, 0, 0, 0, 1, 2, 3, 4])).frame.map
        ZmodemFrame.type = some 1 :=
  c10_binary_raw_type_hex_remapped.1 1 (by decide) (by decide)

/-- Witness for claim C8: the amended theorem applied to the ASCII
download pattern split after two bytes and to the window-clearing
conjunct at a concrete matching input. -/
theorem c8_amended_split_detection_witness :
    ((szPattern, Direction.download) ∈ patternTable ∧ 2 < szPattern.length ∧ 0 < 2) ∧
    ((detectZMODEMSequence [] (szPattern.take 2)).1 = none ∧
     (detectZMODEMSequence (detectZMODEMSequence [] (szPattern.take 2)).2
        (szPattern.drop 2)).1 = some Direction.download) ∧
    (detectZMODEMSequence [] szPattern).1 ≠ none ∧
    (detectZMODEMSequence [] szPattern).2 = [] :=
  ⟨⟨by decide, by decide, by decide⟩,
   c8_amended_split_detection.1 (szPattern, Direction.download) (by decide) 2
     (by decide) (by decide),
   by decide,
   c8_amended_split_detection.2.2 [] szPattern (by decide)⟩

end Zm
